import Mathlib

/-!
Verification of the AI news summarizer backend.

The server under verification is the Express application whose request
pipeline is: validate input, fetch and extract the article text, generate a
summary in the base language (English), optionally translate it, and respond
with JSON. The two external effects (the HTTP fetch feeding the readability
parser, and the chat-completion backend) are modelled as oracles passed to
the handler, and the handler records the network calls it makes so that
call-count properties can be stated.

Machine reals do not occur; the only numeric field (the sampling temperature
0.7 or 0.3) is recorded in tenths as a natural number.
-/

/-- A language profile: short code, summarizer system prompt, and an optional
translation prompt (none exactly for the base language, English). -/
structure LanguageConfig where
  code : String
  systemPrompt : String
  translationPrompt : Option String
deriving Repr, DecidableEq

/-- A summary-length profile: bullet-count instruction and output-size
ceiling. -/
structure LengthConfig where
  instruction : String
  maxTokens : Nat
deriving Repr, DecidableEq

/-- The english entry of the LANGUAGES registry, named because the handler
reads its systemPrompt directly when building the summarization prompt. -/
def englishConfig : LanguageConfig :=
  { code := "en",
    systemPrompt := "You are a professional news summarizer. Create concise, accurate summaries that capture the main points while maintaining context and key details. Format the summary in a clear, readable way with bullet points for key takeaways.",
    translationPrompt := none }

/-- The LANGUAGES registry: exact-match lookup from language key to profile.
Unknown keys resolve to none. -/
def LANGUAGES (language : String) : Option LanguageConfig :=
  if language = "english" then some englishConfig
  else if language = "bosnian" then some {
    code := "bs",
    systemPrompt := "Vi ste profesionalni rezimator vijesti. Kreirajte sažete, precizne sažetke koji obuhvataju glavne tačke uz očuvanje konteksta i ključnih detalja. Formatirajte sažetak na jasan, čitljiv način sa tačkama za ključne zaključke.",
    translationPrompt := some "Translate the following text to Bosnian/Serbian/Croatian (BSC), maintaining the bullet point format and ensuring the translation is natural and fluent:" }
  else if language = "german" then some {
    code := "de",
    systemPrompt := "Sie sind ein professioneller Nachrichtenzusammenfasser. Erstellen Sie prägnante, genaue Zusammenfassungen, die die Hauptpunkte erfassen und dabei Kontext und wichtige Details beibehalten. Formatieren Sie die Zusammenfassung übersichtlich mit Aufzählungspunkten für die wichtigsten Erkenntnisse.",
    translationPrompt := some "Translate the following text to German, maintaining the bullet point format and ensuring the translation is natural and fluent:" }
  else if language = "french" then some {
    code := "fr",
    systemPrompt := "Vous êtes un résumeur professionnel d'actualités. Créez des résumés concis et précis qui capturent les points principaux tout en maintenant le contexte et les détails clés. Formatez le résumé de manière claire et lisible avec des puces pour les points essentiels.",
    translationPrompt := some "Translate the following text to French, maintaining the bullet point format and ensuring the translation is natural and fluent:" }
  else if language = "spanish" then some {
    code := "es",
    systemPrompt := "Eres un resumidor profesional de noticias. Crea resúmenes concisos y precisos que capturen los puntos principales mientras mantienes el contexto y los detalles clave. Formatea el resumen de manera clara y legible con viñetas para los puntos clave.",
    translationPrompt := some "Translate the following text to Spanish, maintaining the bullet point format and ensuring the translation is natural and fluent:" }
  else if language = "italian" then some {
    code := "it",
    systemPrompt := "Sei un riassuntore professionale di notizie. Crea riassunti concisi e accurati che catturino i punti principali mantenendo il contesto e i dettagli chiave. Formatta il riassunto in modo chiaro e leggibile con punti elenco per i punti chiave.",
    translationPrompt := some "Translate the following text to Italian, maintaining the bullet point format and ensuring the translation is natural and fluent:" }
  else if language = "turkish" then some {
    code := "tr",
    systemPrompt := "Profesyonel bir haber özetleyicisisiniz. Bağlamı ve önemli detayları korurken ana noktaları yakalayan özlü, doğru özetler oluşturun. Özeti, önemli noktalar için madde işaretleriyle net ve okunabilir bir şekilde biçimlendirin.",
    translationPrompt := some "Translate the following text to Turkish, maintaining the bullet point format and ensuring the translation is natural and fluent:" }
  else if language = "chinese" then some {
    code := "zh",
    systemPrompt := "您是一位专业的新闻摘要员。创建简洁、准确的摘要，在保持上下文和关键细节的同时捕捉要点。使用项目符号清晰、易读地格式化摘要以突出关键要点。",
    translationPrompt := some "Translate the following text to Chinese (Simplified), maintaining the bullet point format and ensuring the translation is natural and fluent:" }
  else if language = "russian" then some {
    code := "ru",
    systemPrompt := "Вы профессиональный составитель новостных сводок. Создавайте краткие, точные сводки, которые отражают основные моменты, сохраняя контекст и ключевые детали. Форматируйте сводку четко и разборчиво, используя маркированные пункты для ключевых моментов.",
    translationPrompt := some "Translate the following text to Russian, maintaining the bullet point format and ensuring the translation is natural and fluent:" }
  else if language = "arabic" then some {
    code := "ar",
    systemPrompt := "أنت ملخص أخبار محترف. قم بإنشاء ملخصات موجزة ودقيقة تلتقط النقاط الرئيسية مع الحفاظ على السياق والتفاصيل الأساسية. قم بتنسيق الملخص بطريقة واضحة وسهلة القراءة مع نقاط رئيسية للنقاط الأساسية.",
    translationPrompt := some "Translate the following text to Arabic, maintaining the bullet point format and ensuring the translation is natural and fluent. Ensure proper right-to-left formatting:" }
  else none

/-- The lengthConfigs registry of the translate-pipeline server: exact-match
lookup from length tier to profile. -/
def lengthConfigs (summaryLength : String) : Option LengthConfig :=
  if summaryLength = "short" then some {
    instruction := "Create a very brief summary in 2-3 bullet points, focusing only on the most crucial information.",
    maxTokens := 200 }
  else if summaryLength = "medium" then some {
    instruction := "Provide a balanced summary with 4-5 bullet points, covering the main points and key supporting details.",
    maxTokens := 350 }
  else if summaryLength = "detailed" then some {
    instruction := "Create a comprehensive summary with 6-8 bullet points, including main points, supporting details, and relevant context.",
    maxTokens := 500 }
  else none

/-- The SUMMARY_LENGTHS registry of the second (drifted) server variant in
src/server/index.js, embedded for the length-monotonicity claim. -/
def SUMMARY_LENGTHS (summaryLength : String) : Option LengthConfig :=
  if summaryLength = "short" then some {
    instruction := "Provide a very concise summary with 2-3 key points.",
    maxTokens := 100 }
  else if summaryLength = "medium" then some {
    instruction := "Provide a balanced summary with 4-5 key points.",
    maxTokens := 200 }
  else if summaryLength = "detailed" then some {
    instruction := "Provide a comprehensive summary with 6-8 key points.",
    maxTokens := 400 }
  else none

/-- A chat-completion request as assembled by the server: one system message,
one user message, a model name, the sampling temperature in tenths, and the
max_tokens output ceiling. -/
structure ChatRequest where
  systemContent : String
  userContent : String
  model : String
  temperatureTenths : Nat
  maxTokens : Nat
deriving Repr, DecidableEq

/-- Outcome of the single axios fetch plus readability parse inside
extractArticleContent: either the fetch or parse throws (network error,
non-2xx status, malformed document), or the readability heuristic returns
its result, none when it found no article body. -/
inductive FetchResult where
  | fetchError
  | parsed (article : Option String)
deriving Repr, DecidableEq

/-- Outcome of extractArticleContent as seen by the handler: the extracted
text, or the thrown error with message "Failed to extract article content". -/
inductive ExtractOutcome where
  | ok (text : String)
  | extractError
deriving Repr, DecidableEq

/-- extractArticleContent: on a thrown fetch or parse error, rethrows the
fixed extraction error; otherwise returns the article text, or the empty
string when readability found no article. -/
def extractArticleContent : FetchResult → ExtractOutcome
  | .fetchError => .extractError
  | .parsed none => .ok ""
  | .parsed (some text) => .ok text

/-- One recorded outgoing network call: the extraction fetch of a URL, or a
chat-completion call. -/
inductive NetworkCall where
  | httpGet (url : String)
  | chat (req : ChatRequest)
deriving Repr, DecidableEq

/-- The chat backend oracle: for a request, the generated content or the
message of the error the call throws. -/
def ChatOracle : Type := ChatRequest → Except String String

/-- JSON response bodies the summarize route produces. -/
inductive ResponseBody where
  | summary (s : String)
  | error (e : String)
  | errorDetails (e details : String)
deriving Repr, DecidableEq

/-- An HTTP response: status code and JSON body. -/
structure HttpResponse where
  status : Nat
  body : ResponseBody
deriving Repr, DecidableEq

/-- The request body of POST /summarize; a missing field is none (the
destructuring defaults for language and summaryLength apply then). -/
structure RequestBody where
  url : Option String
  language : Option String
  summaryLength : Option String
deriving Repr, DecidableEq

/-- The fixed system message of every translation call. -/
def translatorSystemContent : String :=
  "You are a professional translator. Provide accurate translations while maintaining the original format and style."

/-- The chat request translateText sends for translation prompt tp and
summary text. -/
def translationChatRequest (tp text : String) : ChatRequest :=
  { systemContent := translatorSystemContent,
    userContent := tp ++ "\n\n" ++ text,
    model := "gpt-4-turbo-preview",
    temperatureTenths := 3,
    maxTokens := 1000 }

/-- translateText: returns the text unchanged with no network call when the
language profile has no translation prompt (English); otherwise makes one
chat call and returns its content, mapping any thrown backend error to
"Failed to translate the summary". The language key is looked up in
LANGUAGES; an unknown key (unreachable from the validated handler) throws a
lookup error as the source would. -/
def translateText (oracle : ChatOracle) (text language : String) :
    Except String String × List NetworkCall :=
  match LANGUAGES language with
  | none => (.error "Cannot read properties of undefined (reading 'translationPrompt')", [])
  | some cfg =>
    match cfg.translationPrompt with
    | none => (.ok text, [])
    | some tp =>
      let req := translationChatRequest tp text
      match oracle req with
      | .ok content => (.ok content, [.chat req])
      | .error _ => (.error "Failed to translate the summary", [.chat req])

/-- The system message of the summarization call: the English summarizer
prompt, amended for non-base languages to say the summary is generated in
English first and translated afterward. -/
def summarySystemContent (language : String) : String :=
  if language = "english" then englishConfig.systemPrompt
  else englishConfig.systemPrompt ++ "\n\nGenerate the summary in English first, it will be translated afterward."

/-- The chat request the handler sends for summarization. -/
def summaryChatRequest (language : String) (lenCfg : LengthConfig)
    (articleContent : String) : ChatRequest :=
  { systemContent := summarySystemContent language,
    userContent := lenCfg.instruction ++ "\n\nPlease summarize this news article:\n\n" ++ articleContent,
    model := "gpt-4-turbo-preview",
    temperatureTenths := 7,
    maxTokens := lenCfg.maxTokens }

/-- The POST /summarize handler. fetch gives the outcome of the axios get
for a URL, oracle answers the chat-completion calls. Returns the HTTP
response and the list of outgoing network calls in order. The outer
try/catch of the route maps every thrown error to status 500 with error
"Failed to generate summary" and the thrown message as details. -/
def summarizeHandler (fetch : String → FetchResult) (oracle : ChatOracle)
    (body : RequestBody) : HttpResponse × List NetworkCall :=
  let language := body.language.getD "english"
  let summaryLength := body.summaryLength.getD "medium"
  if body.url = none ∨ body.url = some "" then
    (⟨400, .error "URL is required"⟩, [])
  else
    match LANGUAGES language with
    | none => (⟨400, .error "Invalid language selected"⟩, [])
    | some _ =>
      match lengthConfigs summaryLength with
      | none => (⟨400, .error "Invalid summary length selected"⟩, [])
      | some lenCfg =>
        let url := body.url.getD ""
        match extractArticleContent (fetch url) with
        | .extractError =>
          (⟨500, .errorDetails "Failed to generate summary" "Failed to extract article content"⟩,
            [.httpGet url])
        | .ok articleContent =>
          if articleContent = "" then
            (⟨400, .error "Could not extract article content"⟩, [.httpGet url])
          else
            let sumReq := summaryChatRequest language lenCfg articleContent
            match oracle sumReq with
            | .error e =>
              (⟨500, .errorDetails "Failed to generate summary" e⟩,
                [.httpGet url, .chat sumReq])
            | .ok englishSummary =>
              match translateText oracle englishSummary language with
              | (.ok finalSummary, tcalls) =>
                (⟨200, .summary finalSummary⟩, [.httpGet url, .chat sumReq] ++ tcalls)
              | (.error e, tcalls) =>
                (⟨500, .errorDetails "Failed to generate summary" e⟩,
                  [.httpGet url, .chat sumReq] ++ tcalls)

/-- C8: the output-size ceilings of the length tiers are non-decreasing and
strictly increasing in the order short, medium, detailed, in both length
registries (lengthConfigs of the translate-pipeline server and
SUMMARY_LENGTHS of the drifted variant). -/
theorem length_ceilings_monotone :
    (∃ s m d : LengthConfig,
      lengthConfigs "short" = some s ∧ lengthConfigs "medium" = some m ∧
      lengthConfigs "detailed" = some d ∧
      s.maxTokens ≤ m.maxTokens ∧ m.maxTokens ≤ d.maxTokens ∧
      s.maxTokens < m.maxTokens ∧ m.maxTokens < d.maxTokens) ∧
    (∃ s m d : LengthConfig,
      SUMMARY_LENGTHS "short" = some s ∧ SUMMARY_LENGTHS "medium" = some m ∧
      SUMMARY_LENGTHS "detailed" = some d ∧
      s.maxTokens ≤ m.maxTokens ∧ m.maxTokens ≤ d.maxTokens ∧
      s.maxTokens < m.maxTokens ∧ m.maxTokens < d.maxTokens) :=
  ⟨⟨_, _, _, rfl, rfl, rfl, by decide, by decide, by decide, by decide⟩,
   ⟨_, _, _, rfl, rfl, rfl, by decide, by decide, by decide, by decide⟩⟩

/-- C9: omitting the language field of the request body is equivalent to
supplying english, and omitting summaryLength is equivalent to supplying
medium; the response and the call trace are identical. -/
theorem default_fields_equivalent (fetch : String → FetchResult)
    (oracle : ChatOracle) (url : Option String) (lang len : Option String) :
    summarizeHandler fetch oracle ⟨url, none, len⟩ =
      summarizeHandler fetch oracle ⟨url, some "english", len⟩ ∧
    summarizeHandler fetch oracle ⟨url, lang, none⟩ =
      summarizeHandler fetch oracle ⟨url, lang, some "medium"⟩ :=
  ⟨rfl, rfl⟩

/-- C4: for a language whose profile has no translation prompt (the base
language), translateText returns the input text unchanged and makes no
network call. -/
theorem translateText_base_language_noop (oracle : ChatOracle)
    (text language : String) (cfg : LanguageConfig)
    (hl : LANGUAGES language = some cfg)
    (hnull : cfg.translationPrompt = none) :
    translateText oracle text language = (.ok text, []) := by
  simp [translateText, hl, hnull]

/-- C4 witness: translating for english is the identity with an empty call
trace, even under a backend that would fail every call. -/
theorem translateText_base_language_noop_witness :
    translateText (fun _ => .error "backend down") "a summary" "english" =
      (.ok "a summary", []) :=
  translateText_base_language_noop (fun _ => .error "backend down")
    "a summary" "english" englishConfig rfl rfl

/-- C3: a missing or empty url, an unknown language key, and an unknown
summary-length key are each rejected with status 400 and the exact message of
the source, and the call trace is empty (the rejection happens before any
network call). -/
theorem validation_rejections (fetch : String → FetchResult)
    (oracle : ChatOracle) (body : RequestBody) :
    ((body.url = none ∨ body.url = some "") →
      summarizeHandler fetch oracle body =
        (⟨400, .error "URL is required"⟩, [])) ∧
    (¬ (body.url = none ∨ body.url = some "") →
      LANGUAGES (body.language.getD "english") = none →
      summarizeHandler fetch oracle body =
        (⟨400, .error "Invalid language selected"⟩, [])) ∧
    (¬ (body.url = none ∨ body.url = some "") →
      (∃ cfg, LANGUAGES (body.language.getD "english") = some cfg) →
      lengthConfigs (body.summaryLength.getD "medium") = none →
      summarizeHandler fetch oracle body =
        (⟨400, .error "Invalid summary length selected"⟩, [])) := by
  refine ⟨fun hurl => ?_, fun hurl hl => ?_, fun hurl hl hlen => ?_⟩
  · simp [summarizeHandler, hurl]
  · simp [summarizeHandler, hurl, hl]
  · obtain ⟨cfg, hcfg⟩ := hl
    simp [summarizeHandler, hurl, hcfg, hlen]

/-- C3 witness: the three rejections at concrete request bodies, each with an
empty call trace. -/
theorem validation_rejections_witness :
    (summarizeHandler (fun _ => .fetchError) (fun _ => .ok "S")
        ⟨none, some "german", some "short"⟩ =
      (⟨400, .error "URL is required"⟩, [])) ∧
    (summarizeHandler (fun _ => .fetchError) (fun _ => .ok "S")
        ⟨some "https://example.com/a", some "klingon", some "short"⟩ =
      (⟨400, .error "Invalid language selected"⟩, [])) ∧
    (summarizeHandler (fun _ => .fetchError) (fun _ => .ok "S")
        ⟨some "https://example.com/a", some "german", some "huge"⟩ =
      (⟨400, .error "Invalid summary length selected"⟩, [])) :=
  ⟨(validation_rejections _ _ _).1 (by simp),
   (validation_rejections _ _ _).2.1 (by simp) rfl,
   (validation_rejections _ _ _).2.2 (by simp) ⟨_, rfl⟩ rfl⟩

/-- C10: validation precedence. A missing or empty url yields the URL error
whatever the other fields hold, and when the url is present and both the
language and the length keys are unknown, the language error is reported. -/
theorem validation_precedence (fetch : String → FetchResult)
    (oracle : ChatOracle) :
    (∀ lang len : Option String,
      (summarizeHandler fetch oracle ⟨none, lang, len⟩).1 =
        ⟨400, .error "URL is required"⟩ ∧
      (summarizeHandler fetch oracle ⟨some "", lang, len⟩).1 =
        ⟨400, .error "URL is required"⟩) ∧
    (∀ (u : String) (lang len : Option String), u ≠ "" →
      LANGUAGES (lang.getD "english") = none →
      lengthConfigs (len.getD "medium") = none →
      (summarizeHandler fetch oracle ⟨some u, lang, len⟩).1 =
        ⟨400, .error "Invalid language selected"⟩) := by
  refine ⟨fun lang len => ⟨?_, ?_⟩, fun u lang len hu hl _ => ?_⟩
  · simp [summarizeHandler]
  · simp [summarizeHandler]
  · simp [summarizeHandler, hu, hl]

/-- C10 witness: with every field invalid, the URL error wins; with url
present and both enum keys unknown, the language error wins. -/
theorem validation_precedence_witness :
    (summarizeHandler (fun _ => .fetchError) (fun _ => .ok "S")
        ⟨none, some "klingon", some "huge"⟩).1 =
      ⟨400, .error "URL is required"⟩ ∧
    (summarizeHandler (fun _ => .fetchError) (fun _ => .ok "S")
        ⟨some "https://example.com/a", some "klingon", some "huge"⟩).1 =
      ⟨400, .error "Invalid language selected"⟩ :=
  ⟨((validation_precedence _ _).1 (some "klingon") (some "huge")).1,
   (validation_precedence _ _).2 "https://example.com/a" (some "klingon")
     (some "huge") (by decide) rfl rfl⟩

/-- C5: when extraction yields empty text (also when the readability
heuristic finds no article at all, since extractArticleContent maps an
absent article to the empty string), the request fails 400 with the
could-not-extract message, the only network call is the extraction fetch,
and no summarization call and no success response is produced. -/
theorem empty_extraction_rejected (fetch : String → FetchResult)
    (oracle : ChatOracle) (body : RequestBody) (u : String)
    (cfg : LanguageConfig) (lenCfg : LengthConfig)
    (hu : body.url = some u) (hne : u ≠ "")
    (hl : LANGUAGES (body.language.getD "english") = some cfg)
    (hlen : lengthConfigs (body.summaryLength.getD "medium") = some lenCfg)
    (hx : extractArticleContent (fetch u) = .ok "") :
    summarizeHandler fetch oracle body =
      (⟨400, .error "Could not extract article content"⟩, [.httpGet u]) ∧
    extractArticleContent (FetchResult.parsed none) = .ok "" := by
  refine ⟨?_, rfl⟩
  simp [summarizeHandler, hu, hne, hl, hlen, hx]

/-- C5 witness: a parse with no identifiable article body is rejected 400
with only the fetch in the call trace. -/
theorem empty_extraction_rejected_witness :
    summarizeHandler (fun _ => .parsed none) (fun _ => .ok "S")
        ⟨some "https://example.com/a", some "english", some "short"⟩ =
      (⟨400, .error "Could not extract article content"⟩,
       [.httpGet "https://example.com/a"]) :=
  (empty_extraction_rejected (fun _ => .parsed none) (fun _ => .ok "S")
    ⟨some "https://example.com/a", some "english", some "short"⟩
    "https://example.com/a" englishConfig _ rfl (by decide) rfl rfl rfl).1

/-- A language whose profile carries a translation prompt is not the base
language: the english profile has none. -/
theorem ne_english_of_translation_prompt {lang : String}
    {cfg : LanguageConfig} {tp : String} (hl : LANGUAGES lang = some cfg)
    (htp : cfg.translationPrompt = some tp) : lang ≠ "english" := by
  intro h
  subst h
  rw [show LANGUAGES "english" = some englishConfig from rfl] at hl
  injection hl with h2
  rw [← h2] at htp
  simp [englishConfig] at htp

/-- C1: for a valid non-base language, the summarization call is built from
the english profile's system prompt plus the fixed amendment (it never
targets the requested language), and the translation call is invoked exactly
once, with the base-language summary as its input, after the summarization
call. -/
theorem summarize_base_then_translate (fetch : String → FetchResult)
    (oracle : ChatOracle) (body : RequestBody)
    (u lang text summary tp : String) (cfg : LanguageConfig)
    (lenCfg : LengthConfig)
    (hu : body.url = some u) (hne : u ≠ "")
    (hlang : body.language = some lang)
    (hl : LANGUAGES lang = some cfg)
    (htp : cfg.translationPrompt = some tp)
    (hlen : lengthConfigs (body.summaryLength.getD "medium") = some lenCfg)
    (hx : extractArticleContent (fetch u) = .ok text) (htext : text ≠ "")
    (hs : oracle (summaryChatRequest lang lenCfg text) = .ok summary) :
    (summarizeHandler fetch oracle body).2 =
      [.httpGet u, .chat (summaryChatRequest lang lenCfg text),
       .chat (translationChatRequest tp summary)] ∧
    (summaryChatRequest lang lenCfg text).systemContent =
      englishConfig.systemPrompt ++
        "\n\nGenerate the summary in English first, it will be translated afterward." ∧
    (translationChatRequest tp summary).userContent = tp ++ "\n\n" ++ summary := by
  have hne2 : lang ≠ "english" := ne_english_of_translation_prompt hl htp
  refine ⟨?_, ?_, rfl⟩
  · rcases ht : oracle (translationChatRequest tp summary) with e | c <;>
      simp [summarizeHandler, translateText, hu, hne, hlang, hl, htp, hlen,
        hx, htext, hs, ht]
  · simp [summaryChatRequest, summarySystemContent, hne2]

/-- C1 witness: a german request against a backend that answers GENERATED
makes exactly the fetch, one summarization call and one translation call
whose input is the base-language summary. -/
theorem summarize_base_then_translate_witness :
    (summarizeHandler (fun _ => .parsed (some "Article text."))
        (fun _ => .ok "GENERATED")
        ⟨some "https://example.com/a", some "german", some "short"⟩).2 =
      [.httpGet "https://example.com/a",
       .chat (summaryChatRequest "german"
         ⟨"Create a very brief summary in 2-3 bullet points, focusing only on the most crucial information.", 200⟩
         "Article text."),
       .chat (translationChatRequest
         "Translate the following text to German, maintaining the bullet point format and ensuring the translation is natural and fluent:"
         "GENERATED")] ∧
    (summaryChatRequest "german"
      ⟨"Create a very brief summary in 2-3 bullet points, focusing only on the most crucial information.", 200⟩
      "Article text.").systemContent =
      englishConfig.systemPrompt ++
        "\n\nGenerate the summary in English first, it will be translated afterward." ∧
    (translationChatRequest
      "Translate the following text to German, maintaining the bullet point format and ensuring the translation is natural and fluent:"
      "GENERATED").userContent =
      "Translate the following text to German, maintaining the bullet point format and ensuring the translation is natural and fluent:"
        ++ "\n\n" ++ "GENERATED" :=
  summarize_base_then_translate (fun _ => .parsed (some "Article text."))
    (fun _ => .ok "GENERATED")
    ⟨some "https://example.com/a", some "german", some "short"⟩
    "https://example.com/a" "german" "Article text." "GENERATED" _ _ _
    rfl (by decide) rfl rfl rfl rfl rfl (by decide) rfl

/-- C2 counterexample: when the extraction fetch throws (network error or
non-2xx status), the thrown extraction error reaches the outer catch and the
response is status 500, not a 400-class client error. -/
theorem extraction_fetch_error_not_client_error :
    (summarizeHandler (fun _ => .fetchError) (fun _ => .ok "GENERATED")
        ⟨some "https://example.com/a", some "english", some "medium"⟩).1 =
      ⟨500, .errorDetails "Failed to generate summary"
        "Failed to extract article content"⟩ ∧
    ¬ (400 ≤ (summarizeHandler (fun _ => .fetchError) (fun _ => .ok "GENERATED")
          ⟨some "https://example.com/a", some "english", some "medium"⟩).1.status ∧
       (summarizeHandler (fun _ => .fetchError) (fun _ => .ok "GENERATED")
          ⟨some "https://example.com/a", some "english", some "medium"⟩).1.status < 500) :=
  ⟨rfl, by decide⟩

/-- C2 amended: a thrown extraction failure (network error, non-2xx status)
yields status 500 with error Failed to generate summary and the extraction
error message as details, while an extraction that finds no article body
yields 400 Could not extract article content; in both cases the only network
call is the fetch, so no summarization or translation call is made. -/
theorem extraction_failure_responses (fetch : String → FetchResult)
    (oracle : ChatOracle) (body : RequestBody) (u : String)
    (cfg : LanguageConfig) (lenCfg : LengthConfig)
    (hu : body.url = some u) (hne : u ≠ "")
    (hl : LANGUAGES (body.language.getD "english") = some cfg)
    (hlen : lengthConfigs (body.summaryLength.getD "medium") = some lenCfg) :
    (fetch u = .fetchError →
      summarizeHandler fetch oracle body =
        (⟨500, .errorDetails "Failed to generate summary"
          "Failed to extract article content"⟩, [.httpGet u])) ∧
    (extractArticleContent (fetch u) = .ok "" →
      summarizeHandler fetch oracle body =
        (⟨400, .error "Could not extract article content"⟩, [.httpGet u])) := by
  refine ⟨fun hx => ?_, fun hx => ?_⟩
  · simp [summarizeHandler, hu, hne, hl, hlen, hx, extractArticleContent]
  · simp [summarizeHandler, hu, hne, hl, hlen, hx]

/-- C2 amended witness: a fetch that throws produces the 500 response with
only the fetch in the call trace. -/
theorem extraction_failure_responses_witness :
    summarizeHandler (fun _ => .fetchError) (fun _ => .ok "GENERATED")
        ⟨some "https://example.com/a", some "german", some "medium"⟩ =
      (⟨500, .errorDetails "Failed to generate summary"
        "Failed to extract article content"⟩,
       [.httpGet "https://example.com/a"]) :=
  (extraction_failure_responses (fun _ => .fetchError) (fun _ => .ok "GENERATED")
    ⟨some "https://example.com/a", some "german", some "medium"⟩
    "https://example.com/a" _ _ rfl (by decide) rfl rfl).1 rfl

/-- C7: when summarization succeeds for a valid non-base language but the
translation call fails, the whole request fails 500 with Failed to generate
summary and the translation error as details, and no response carrying the
already-generated base-language summary (or any summary) is produced. -/
theorem translation_failure_fails_request (fetch : String → FetchResult)
    (oracle : ChatOracle) (body : RequestBody)
    (u lang text summary tp : String) (cfg : LanguageConfig)
    (lenCfg : LengthConfig)
    (hu : body.url = some u) (hne : u ≠ "")
    (hlang : body.language = some lang)
    (hl : LANGUAGES lang = some cfg)
    (htp : cfg.translationPrompt = some tp)
    (hlen : lengthConfigs (body.summaryLength.getD "medium") = some lenCfg)
    (hx : extractArticleContent (fetch u) = .ok text) (htext : text ≠ "")
    (hs : oracle (summaryChatRequest lang lenCfg text) = .ok summary)
    (ht : ∃ e, oracle (translationChatRequest tp summary) = .error e) :
    summarizeHandler fetch oracle body =
      (⟨500, .errorDetails "Failed to generate summary"
        "Failed to translate the summary"⟩,
       [.httpGet u, .chat (summaryChatRequest lang lenCfg text),
        .chat (translationChatRequest tp summary)]) ∧
    ∀ s, (summarizeHandler fetch oracle body).1.body ≠ .summary s := by
  obtain ⟨e, ht⟩ := ht
  have h : summarizeHandler fetch oracle body =
      (⟨500, .errorDetails "Failed to generate summary"
        "Failed to translate the summary"⟩,
       [.httpGet u, .chat (summaryChatRequest lang lenCfg text),
        .chat (translationChatRequest tp summary)]) := by
    simp [summarizeHandler, translateText, hu, hne, hlang, hl, htp, hlen,
      hx, htext, hs, ht]
  exact ⟨h, fun s => by rw [h]; simp⟩

/-- C7 witness: a backend failing exactly the translation call turns a
german request into the 500 response although the base-language summary was
generated. -/
theorem translation_failure_fails_request_witness :
    summarizeHandler (fun _ => .parsed (some "Article text."))
        (fun req => if req.systemContent = translatorSystemContent
          then .error "quota exceeded" else .ok "GENERATED")
        ⟨some "https://example.com/a", some "german", some "short"⟩ =
      (⟨500, .errorDetails "Failed to generate summary"
        "Failed to translate the summary"⟩,
       [.httpGet "https://example.com/a",
        .chat (summaryChatRequest "german"
          ⟨"Create a very brief summary in 2-3 bullet points, focusing only on the most crucial information.", 200⟩
          "Article text."),
        .chat (translationChatRequest
          "Translate the following text to German, maintaining the bullet point format and ensuring the translation is natural and fluent:"
          "GENERATED")]) :=
  (translation_failure_fails_request
    (fun _ => .parsed (some "Article text."))
    (fun req => if req.systemContent = translatorSystemContent
      then .error "quota exceeded" else .ok "GENERATED")
    ⟨some "https://example.com/a", some "german", some "short"⟩
    "https://example.com/a" "german" "Article text." "GENERATED" _ _ _
    rfl (by decide) rfl rfl rfl rfl rfl (by decide) rfl
    ⟨"quota exceeded", rfl⟩).1

/-- C6: for every request and every behavior of the fetch and of the chat
backend, the handler returns one of three JSON shapes — 200 with a summary,
400 with an error string, or 500 with error Failed to generate summary plus
a details string — so no failure propagates past the HTTP boundary; and a
summarization backend failure in particular yields the 500 shape carrying
the thrown message as details. -/
theorem response_shape_total (fetch : String → FetchResult)
    (oracle : ChatOracle) (body : RequestBody) :
    ((∃ s, (summarizeHandler fetch oracle body).1 = ⟨200, .summary s⟩) ∨
     (∃ e, (summarizeHandler fetch oracle body).1 = ⟨400, .error e⟩) ∨
     (∃ d, (summarizeHandler fetch oracle body).1 =
        ⟨500, .errorDetails "Failed to generate summary" d⟩)) ∧
    (∀ (u text e : String) (lenCfg : LengthConfig),
      body.url = some u → u ≠ "" →
      (∃ cfg, LANGUAGES (body.language.getD "english") = some cfg) →
      lengthConfigs (body.summaryLength.getD "medium") = some lenCfg →
      extractArticleContent (fetch u) = .ok text → text ≠ "" →
      oracle (summaryChatRequest (body.language.getD "english") lenCfg text) =
        .error e →
      summarizeHandler fetch oracle body =
        (⟨500, .errorDetails "Failed to generate summary" e⟩,
         [.httpGet u,
          .chat (summaryChatRequest (body.language.getD "english") lenCfg text)])) := by
  constructor
  · by_cases hurl : body.url = none ∨ body.url = some ""
    · exact .inr (.inl ⟨"URL is required", by simp [summarizeHandler, hurl]⟩)
    · rcases hl : LANGUAGES (body.language.getD "english") with _ | cfg
      · exact .inr (.inl ⟨"Invalid language selected",
          by simp [summarizeHandler, hurl, hl]⟩)
      · rcases hlen : lengthConfigs (body.summaryLength.getD "medium") with _ | lenCfg
        · exact .inr (.inl ⟨"Invalid summary length selected",
            by simp [summarizeHandler, hurl, hl, hlen]⟩)
        · rcases hx : extractArticleContent (fetch (body.url.getD "")) with text | _
          · by_cases htext : text = ""
            · subst htext
              exact .inr (.inl ⟨"Could not extract article content",
                by simp [summarizeHandler, hurl, hl, hlen, hx]⟩)
            · rcases hs : oracle (summaryChatRequest (body.language.getD "english") lenCfg text)
                with e | summary
              · exact .inr (.inr ⟨e,
                  by simp [summarizeHandler, hurl, hl, hlen, hx, htext, hs]⟩)
              · rcases htp : cfg.translationPrompt with _ | tp
                · exact .inl ⟨summary, by
                    simp [summarizeHandler, translateText, hurl, hl, hlen, hx,
                      htext, hs, htp]⟩
                · rcases ht : oracle (translationChatRequest tp summary) with e2 | c
                  · exact .inr (.inr ⟨"Failed to translate the summary", by
                      simp [summarizeHandler, translateText, hurl, hl, hlen, hx,
                        htext, hs, htp, ht]⟩)
                  · exact .inl ⟨c, by
                      simp [summarizeHandler, translateText, hurl, hl, hlen, hx,
                        htext, hs, htp, ht]⟩
          · exact .inr (.inr ⟨"Failed to extract article content",
              by simp [summarizeHandler, hurl, hl, hlen, hx]⟩)
  · rintro u text e lenCfg hu hne ⟨cfg, hl⟩ hlen hx htext hs
    simp [summarizeHandler, hu, hne, hl, hlen, hx, htext, hs]
